import Mathlib

/-!
Verification of the PostgREST python client (`src/postgrest.py`) against its
natural-language specification.  The module's classes `PostgrestResource` and
`PostgrestAPI` are shallowly embedded: JSON scalar values become `Value`,
Python dicts become association lists with distinct keys, the HTTP session
becomes an explicit environment `Session` mapping the index of the call and
the request to the response the server gives, exceptions become an explicit
`Except` over `PyExc`, and each method becomes a function in a small
state-passing monad `PyM` that also records the requests issued (so that
"no network call occurs" and "a PATCH is sent with body B" are statable).
-/

/-- A JSON scalar value as stored in a record's `attrs` mapping
(`src/postgrest.py:45`).  Nested objects/arrays do not occur in any claim
and are omitted. -/
inductive Value where
  | null
  | bool (b : Bool)
  | int (n : Int)
  | str (s : String)
deriving DecidableEq, Repr

/-- Python `str(v)` as used by `'%s' % v` formatting on these values. -/
def pyStr : Value → String
  | .null => "None"
  | .bool b => if b then "True" else "False"
  | .int n => toString n
  | .str s => s

/-- A Python dict from column names to values (keys distinct). -/
abbrev Attrs := List (String × Value)

/-- Dict lookup `attrs[name]` / membership `name in attrs`. -/
def lookupAttr (name : String) (attrs : Attrs) : Option Value :=
  (attrs.find? (fun kv => kv.1 == name)).map (fun kv => kv.2)

/-- An HTTP response as the client observes it: status code, reason phrase
(as sent by the server on the status line), final URL, and the JSON body
already parsed as an array of objects (`resp.json()`). -/
structure HttpResponse where
  status : Nat
  reason : String
  url : String
  body : List Attrs
deriving DecidableEq, Repr

/-- An HTTP request as issued through the shared `requests` session. -/
inductive Request where
  | get (url : String) (params : List (String × String))
  | post (url : String) (data : String)
  | patch (url : String) (data : String)
  | delete (url : String)
deriving DecidableEq, Repr

/-- The server side: the response it gives to the `n`-th request issued by
the client (indexing by call lets the database change between calls, which
is what the `get_or_create` conflict race is about). -/
abbrev Session := Nat → Request → HttpResponse

/-- The Python exceptions the embedded code can raise.
`postgrest` is `PostgrestException` (`src/postgrest.py:35`), a subclass of
`requests.exceptions.HTTPError`, built as `PostgrestException(str(e),
response=resp)`, so it carries the formatted message and the response
(hence the HTTP status and body). -/
inductive PyExc where
  | postgrest (msg : String) (response : HttpResponse)
  | valueError (msg : String)
  | assertionError
  | attributeError (msg : String)
  | indexError
  | nameError (name : String)
deriving DecidableEq, Repr

/-- Computation monad: state-passing over the list of requests issued so
far, with Python exceptions short-circuiting. -/
def PyM (α : Type) : Type := List Request → Except PyExc α × List Request

def PyM.pure {α : Type} (a : α) : PyM α := fun t => (.ok a, t)

def PyM.bind {α β : Type} (x : PyM α) (f : α → PyM β) : PyM β := fun t =>
  match x t with
  | (.ok a, t') => f a t'
  | (.error e, t') => (.error e, t')

/-- `raise e`. -/
def PyM.throw {α : Type} (e : PyExc) : PyM α := fun t => (.error e, t)

/-- `try x except: handler` (the handler inspects the exception and may
re-raise it). -/
def PyM.tryCatch {α : Type} (x : PyM α) (handler : PyExc → PyM α) : PyM α := fun t =>
  match x t with
  | (.ok a, t') => (.ok a, t')
  | (.error e, t') => handler e t'

/-- Issue one HTTP request through the session and record it. -/
def httpCall (env : Session) (req : Request) : PyM HttpResponse := fun t =>
  (.ok (env t.length req), t ++ [req])

/-- Run a computation from a fresh session: the result and the full list of
requests that went over the wire. -/
def PyM.run {α : Type} (m : PyM α) : Except PyExc α × List Request := m []

/-- `requests`' `Response.raise_for_status` raises exactly for
`400 <= status < 600`. -/
def HttpResponse.isError (r : HttpResponse) : Bool :=
  400 ≤ r.status && r.status < 600

/-- The message of the `requests.exceptions.HTTPError` that
`raise_for_status` raises: `'%s Client Error: %s for url: %s'` for 4xx and
`'%s Server Error: %s for url: %s'` for 5xx. -/
def httpErrorMsg (r : HttpResponse) : String :=
  if 400 ≤ r.status && r.status < 500 then
    toString r.status ++ " Client Error: " ++ r.reason ++ " for url: " ++ r.url
  else
    toString r.status ++ " Server Error: " ++ r.reason ++ " for url: " ++ r.url

/-! String helpers modelling Python string operations. -/

/-- Python's substring test `pat in s`, on character lists: some suffix of
`s` starts with `pat`. -/
def containsSub (pat : List Char) : List Char → Bool
  | [] => pat.isEmpty
  | c :: t => pat.isPrefixOf (c :: t) || containsSub pat t

/-- Python's `pat in s` on strings. -/
def strContains (s pat : String) : Bool := containsSub pat.data s.data

/-- Python's `s.startswith(pre)` / `re.match` of a literal prefix. -/
def strStartsWith (s pre : String) : Bool := pre.data.isPrefixOf s.data

/-- Python's `s.endswith(suf)`. -/
def strEndsWith (s suf : String) : Bool := suf.data.isSuffixOf s.data

/-- `re.sub(pat, '', s)` for a literal pattern: delete every
(left-to-right, non-overlapping) occurrence of `pat`. -/
def removeSub (pat : List Char) (s : List Char) : List Char :=
  match s with
  | [] => []
  | c :: t =>
    if pat.isEmpty = false ∧ pat.isPrefixOf (c :: t) then
      removeSub pat (t.drop (pat.length - 1))
    else
      c :: removeSub pat t
termination_by s.length
decreasing_by
  · simp only [List.length_cons, List.length_drop]
    omega
  · simp only [List.length_cons]
    omega

/-- One lowercase hex digit. -/
def hexDigit (n : Nat) : Char :=
  if n < 10 then Char.ofNat (48 + n) else Char.ofNat (87 + n)

/-- Four lowercase hex digits, as in JSON `\uXXXX` escapes. -/
def hex4 (n : Nat) : List Char :=
  [hexDigit (n / 4096 % 16), hexDigit (n / 256 % 16), hexDigit (n / 16 % 16), hexDigit (n % 16)]

/-- How CPython's `json.dumps` (default `ensure_ascii=True`) renders one
character inside a JSON string. -/
def jsonEscapeChar (c : Char) : List Char :=
  if c = '"' then ['\\', '"']
  else if c = '\\' then ['\\', '\\']
  else if c = '\n' then ['\\', 'n']
  else if c = '\t' then ['\\', 't']
  else if c = '\r' then ['\\', 'r']
  else if c = Char.ofNat 8 then ['\\', 'b']
  else if c = Char.ofNat 12 then ['\\', 'f']
  else if c.toNat < 32 then '\\' :: 'u' :: hex4 c.toNat
  else if c.toNat < 127 then [c]
  else if c.toNat < 65536 then '\\' :: 'u' :: hex4 c.toNat
  else
    let n := c.toNat - 65536
    ('\\' :: 'u' :: hex4 (55296 + n / 1024)) ++ ('\\' :: 'u' :: hex4 (56320 + n % 1024))

/-- `json.dumps` of one scalar value. -/
def jsonDumpsValue : Value → List Char
  | .null => "null".data
  | .bool b => if b then "true".data else "false".data
  | .int n => (toString n).data
  | .str s => '"' :: (s.data.flatMap jsonEscapeChar ++ ['"'])

/-- `json.dumps(payload)` for a dict payload, default separators
`(', ', ': ')`, keys in dict (insertion) order. -/
def jsonDumps (payload : Attrs) : String :=
  String.mk (('\x7b' :: List.intercalate ", ".data
    (payload.map (fun kv => jsonDumpsValue (.str kv.1) ++ ": ".data ++ jsonDumpsValue kv.2)))
    ++ ['\x7d'])

/-- The six-character sequence `\u0000` that `json.dumps` produces for an
embedded NUL character. -/
def nulEscape : List Char := ['\\', 'u', '0', '0', '0', '0']

/-- `re.sub(r'\\u0000', '', json_data)` (`src/postgrest.py:116`): strip
every NUL escape sequence from the serialized JSON text. -/
def removeNulEscapes (s : String) : String := String.mk (removeSub nulEscape s.data)

/-! The resource (record) model. -/

/-- The class-level data of a concrete `PostgrestResource` subclass:
its name (`__class__.__name__`), `_meta_table_name`, `_get_or_create_keys`,
and `_pk_dict` — the latter two are abstract properties implemented by the
concrete subclass, so `pkOf` is an arbitrary function of the current
attributes. -/
structure ResourceClass where
  name : String
  metaTableName : String
  getOrCreateKeys : List String
  pkOf : Attrs → List (String × Value)

/-- A `PostgrestResource` instance: its class and its `attrs` dict
(`src/postgrest.py:42-45`). -/
structure Resource where
  cls : ResourceClass
  attrs : Attrs

/-- The `PostgrestAPI` state a resource operation reads: the normalized
base connection URL. -/
structure API where
  connection_url : String

/-- `PostgrestResource.connection_url` (`src/postgrest.py:47-49`). -/
def Resource.connUrl (r : Resource) (api : API) : String :=
  api.connection_url ++ "/" ++ r.cls.metaTableName

/-- `PostgrestResource._pk_dict` (abstract property, `src/postgrest.py:55-57`). -/
def Resource.pk_dict (r : Resource) : List (String × Value) :=
  r.cls.pkOf r.attrs

/-- `PostgrestResource._pk_url` (`src/postgrest.py:59-62`):
`connection_url + '?' + '&'.join('%s=%s' % (k, v) ...)`. -/
def Resource.pk_url (r : Resource) (api : API) : String :=
  r.connUrl api ++ "?" ++
    String.intercalate "&" (r.pk_dict.map (fun kv => kv.1 ++ "=" ++ pyStr kv.2))

/-- `requests` stringifies query-parameter values when encoding them. -/
def stringifyParams (params : List (String × Value)) : List (String × String) :=
  params.map (fun kv => (kv.1, pyStr kv.2))

/-- `PostgrestResource.__getattr__` (`src/postgrest.py:64-67`).  Python only
calls `__getattr__` after ordinary attribute lookup fails, so this models
access to a column name (not to `api`/`attrs` themselves):
`if name in self.attrs: return self.attrs[name]` else `AttributeError`. -/
def Resource.getattr (r : Resource) (name : String) : Except PyExc Value :=
  match lookupAttr name r.attrs with
  | some v => .ok v
  | none => .error (.attributeError
      ("\x27" ++ r.cls.name ++ "\x27 object has no attribute \x27" ++ name ++ "\x27"))

/-! The HTTP operations of `PostgrestResource`. -/

/-- `PostgrestResource.filter` (`src/postgrest.py:90-100`): GET the
collection URL with the given query params; `raise_for_status` failures are
wrapped into `PostgrestException(str(e), response=resp)`; otherwise each
element of the JSON array becomes a fresh instance of the same class. -/
def Resource.filter (env : Session) (api : API) (r : Resource)
    (params : List (String × Value)) : PyM (List Resource) :=
  PyM.bind (httpCall env (.get (r.connUrl api) (stringifyParams params))) (fun resp =>
    if resp.isError then
      PyM.throw (.postgrest (httpErrorMsg resp) resp)
    else
      PyM.pure (resp.body.map (fun attrs => Resource.mk r.cls attrs)))

/-- `PostgrestResource.get` (`src/postgrest.py:102-107`):
`objects = filter(params); if objects: assert len(objects) == 1;
return objects[0]; return None`. -/
def Resource.get (env : Session) (api : API) (r : Resource)
    (params : List (String × Value)) : PyM (Option Resource) :=
  PyM.bind (Resource.filter env api r params) (fun objects =>
    match objects with
    | [] => PyM.pure none
    | [x] => PyM.pure (some x)
    | _ => PyM.throw .assertionError)

/-- `PostgrestResource.refresh` (`src/postgrest.py:109-111`):
`obj = self.get(self._pk_dict); self.attrs = obj.attrs.copy()`.  When `get`
returns `None`, `None.attrs` raises `AttributeError`. -/
def Resource.refresh (env : Session) (api : API) (r : Resource) : PyM Resource :=
  PyM.bind (Resource.get env api r r.pk_dict) (fun obj =>
    match obj with
    | some o => PyM.pure (Resource.mk r.cls o.attrs)
    | none => PyM.throw (.attributeError
        "\x27NoneType\x27 object has no attribute \x27attrs\x27"))

/-- `PostgrestResource.put` (`src/postgrest.py:113-124`): PATCH the
pk-filtered URL with `json.dumps(payload)` after deleting every `\u0000`
escape; non-2xx wrapped into `PostgrestException` (after logging); returns
the parsed response body (the headers are not modelled). -/
def Resource.put (env : Session) (api : API) (r : Resource) (payload : Attrs) :
    PyM (List Attrs) :=
  PyM.bind (httpCall env (.patch (r.pk_url api) (removeNulEscapes (jsonDumps payload))))
    (fun resp =>
      if resp.isError then
        PyM.throw (.postgrest (httpErrorMsg resp) resp)
      else
        PyM.pure resp.body)

/-- `PostgrestResource.update` (`src/postgrest.py:126-129`):
`if payload: self.put(payload)` then always `self.refresh()`.  The mutated
`self` is returned explicitly. -/
def Resource.update (env : Session) (api : API) (r : Resource) (payload : Attrs) :
    PyM Resource :=
  if payload.isEmpty then
    Resource.refresh env api r
  else
    PyM.bind (Resource.put env api r payload) (fun _ => Resource.refresh env api r)

/-- `PostgrestResource.post` (`src/postgrest.py:131-140`): POST
`json.dumps(payload)` to the collection URL (with
`Prefer: return=representation`); non-2xx wrapped into
`PostgrestException`; returns the parsed body. -/
def Resource.post (env : Session) (api : API) (r : Resource) (payload : Attrs) :
    PyM (List Attrs) :=
  PyM.bind (httpCall env (.post (r.connUrl api) (jsonDumps payload))) (fun resp =>
    if resp.isError then
      PyM.throw (.postgrest (httpErrorMsg resp) resp)
    else
      PyM.pure resp.body)

/-- `PostgrestResource.create` (`src/postgrest.py:142-144`):
`attrs, headers = self.post(payload); return self.__class__(self.api,
attrs=attrs[0])` — indexing `[0]` into an empty response array raises an
unguarded `IndexError`. -/
def Resource.create (env : Session) (api : API) (r : Resource) (payload : Attrs) :
    PyM Resource :=
  PyM.bind (Resource.post env api r payload) (fun attrs =>
    match attrs with
    | [] => PyM.throw .indexError
    | a :: _ => PyM.pure (Resource.mk r.cls a))

/-- `PostgrestResource.delete` (`src/postgrest.py:146-154`): DELETE the
pk-filtered URL; non-2xx wrapped into `PostgrestException` (after logging). -/
def Resource.delete (env : Session) (api : API) (r : Resource) : PyM Unit :=
  PyM.bind (httpCall env (.delete (r.pk_url api))) (fun resp =>
    if resp.isError then
      PyM.throw (.postgrest (httpErrorMsg resp) resp)
    else
      PyM.pure ())

/-- The inner `__get` of `get_or_create` (`src/postgrest.py:157-164`):
keep only the identity fields of `params`, each value wrapped as
`'eq.%s' % v`, overridden to `'is.null'` when the value is `None`. -/
def gocFilterParams (keys : List String) (params : Attrs) : List (String × Value) :=
  params.filterMap (fun kv =>
    if keys.contains kv.1 then
      some (kv.1, if kv.2 = Value.null then Value.str "is.null"
                  else Value.str ("eq." ++ pyStr kv.2))
    else none)

/-- The literal matched against `str(e)` at `src/postgrest.py:176`. -/
def conflictNeedle : String := "409 Client Error: Conflict for"

/-- `PostgrestResource.get_or_create` (`src/postgrest.py:156-178`): validate
that every identity key is present (else `ValueError`, before any request);
`found = __get(params)`; if found return `(found, False)`; else try
`create(params)` returning `(obj, True)`; a `PostgrestException` whose
message does not contain the 409-conflict needle is re-raised, otherwise
fall through to `return __get(params), False`. -/
def Resource.get_or_create (env : Session) (api : API) (r : Resource) (params : Attrs) :
    PyM (Option Resource × Bool) :=
  match r.cls.getOrCreateKeys.find? (fun k => !(params.any (fun kv => kv.1 == k))) with
  | some k => PyM.throw (.valueError
      ("Must provide \x22" ++ k ++ "\x22 param for " ++ r.cls.name ++ " get_or_create!"))
  | none =>
    PyM.bind (Resource.get env api r (gocFilterParams r.cls.getOrCreateKeys params))
      (fun found =>
        match found with
        | some f => PyM.pure (some f, false)
        | none =>
          PyM.tryCatch
            (PyM.bind (Resource.create env api r params) (fun obj => PyM.pure (some obj, true)))
            (fun e =>
              match e with
              | .postgrest msg _resp =>
                if strContains msg conflictNeedle then
                  PyM.bind (Resource.get env api r (gocFilterParams r.cls.getOrCreateKeys params))
                    (fun g => PyM.pure (g, false))
                else
                  PyM.throw e
              | _ => PyM.throw e))

/-!
Python hashing, as used by `__hash__`/`__eq__` (`src/postgrest.py:69-73`):
`hash(self) = hash(tuple(sorted(self._pk_dict.items())))` and
`self == other  iff  hash(self) == hash(other)`.

CPython's hash of an int and of a tuple are deterministic and modelled
exactly; the hash of a str (and of `None` before CPython 3.12) is
randomized per process, so it is a parameter `HashCfg` of the model and
every statement quantifies over it.
-/

/-- CPython's `hash` of an int: `|n| mod (2^61 - 1)` with the sign of `n`,
and the error sentinel `-1` replaced by `-2` (hence `hash(-1) = hash(-2)`). -/
def pyHashInt (n : Int) : Int :=
  let p : Int := 2 ^ 61 - 1
  let m : Int := (n.natAbs : Int) % p
  let s : Int := if n < 0 then -m else m
  if s = -1 then -2 else s

/-- Reduce modulo 2^64 (unsigned 64-bit arithmetic). -/
def u64 (n : Nat) : Nat := n % 2 ^ 64

/-- 64-bit rotate left by 31, as in CPython's tuple hash. -/
def rotl31 (x : Nat) : Nat := u64 (x * 2 ^ 31) + x / 2 ^ 33

/-- Reinterpret a signed hash value as an unsigned 64-bit lane. -/
def toU64 (i : Int) : Nat := (i % (2 ^ 64 : Int)).toNat

/-- Reinterpret an unsigned 64-bit accumulator as a signed value. -/
def fromU64 (n : Nat) : Int := if n < 2 ^ 63 then (n : Int) else (n : Int) - 2 ^ 64

/-- CPython's (>= 3.8) xxHash-style tuple hash over the hashes of the
elements. -/
def pyHashTuple (lanes : List Int) : Int :=
  let acc := lanes.foldl
    (fun acc lane => u64 (rotl31 (u64 (acc + u64 (toU64 lane * 14029467366897019727))) *
      11400714785074694791))
    2870177450012600261
  let acc := u64 (acc + Nat.xor lanes.length (Nat.xor 2870177450012600261 3527539))
  fromU64 (if acc = 2 ^ 64 - 1 then 1546275796 else acc)

/-- The process-dependent parts of Python hashing: the (siphash-seeded)
string hash and the hash of `None`. -/
structure HashCfg where
  strHash : String → Int
  noneHash : Int

/-- `hash(v)` for a scalar value (`hash(True) = 1`, `hash(False) = 0`). -/
def pyHashValue (cfg : HashCfg) : Value → Int
  | .null => cfg.noneHash
  | .bool b => if b then 1 else 0
  | .int n => pyHashInt n
  | .str s => cfg.strHash s

/-- `hash(('k', v))` for one item of `_pk_dict.items()`. -/
def pyHashItem (cfg : HashCfg) (kv : String × Value) : Int :=
  pyHashTuple [cfg.strHash kv.1, pyHashValue cfg kv.2]

/-- Insert into a list sorted by key (Python's `sorted` on `(key, value)`
tuples compares the distinct keys first, so key order decides). -/
def insertSorted (kv : String × Value) : List (String × Value) → List (String × Value)
  | [] => [kv]
  | h :: t => if kv.1 ≤ h.1 then kv :: h :: t else h :: insertSorted kv t

/-- `sorted(d.items())` for a dict with distinct keys. -/
def sortItems (l : List (String × Value)) : List (String × Value) :=
  l.foldr insertSorted []

/-- `PostgrestResource.__hash__` (`src/postgrest.py:69-70`):
`hash(tuple(sorted(self._pk_dict.items())))`. -/
def Resource.pyHash (cfg : HashCfg) (r : Resource) : Int :=
  pyHashTuple ((sortItems r.pk_dict).map (pyHashItem cfg))

/-- `PostgrestResource.__eq__` (`src/postgrest.py:72-73`):
`hash(self) == hash(other)`. -/
def Resource.pyEq (cfg : HashCfg) (r1 r2 : Resource) : Bool :=
  Resource.pyHash cfg r1 == Resource.pyHash cfg r2

/-- Record equality under every choice of the process-dependent string/None
hash: what `r1 == r2` evaluates to in every CPython process. -/
def pyEqAllCfg (r1 r2 : Resource) : Prop :=
  ∀ cfg : HashCfg, Resource.pyEq cfg r1 r2 = true

/-!
`PostgrestAPI.__init__` (`src/postgrest.py:184-193`), connection-URL part.
-/

/-- `re.match(r'https?://', url)`: the anchored literal alternatives. -/
def matchesHttpScheme (u : String) : Bool :=
  strStartsWith u "http://" || strStartsWith u "https://"

/-- The netloc of a URL that starts with a scheme: the characters after
`scheme://` up to the first `/`, `?` or `#` (the restriction of
`urlparse` to the inputs this constructor ever passes it, which always
carry an `http://` or `https://` prefix by line 186-187). -/
def urlparseSchemeNetloc (u : String) : String × String :=
  if strStartsWith u "https://" then
    ("https", String.mk ((u.data.drop 8).takeWhile
      (fun c => c != '/' && c != '?' && c != '#')))
  else if strStartsWith u "http://" then
    ("http", String.mk ((u.data.drop 7).takeWhile
      (fun c => c != '/' && c != '?' && c != '#')))
  else
    ("", "")

/-- The top-level names bound in the module `src/postgrest.py` by its
imports (lines 17-30) and class statements.  The compatibility shim
`import urllib.parse as urlparse` (with the py2 fallback `import urlparse`)
binds ONLY the alias `urlparse`; in neither branch is the name `urllib`
bound. -/
def postgrestModuleNames : List String :=
  ["datetime", "json", "logging", "os", "re", "requests", "sys", "urlparse",
   "PostgrestException", "PostgrestResource", "PostgrestAPI"]

/-- `PostgrestAPI.__init__` (`src/postgrest.py:184-189`): prefix `http://`
when no scheme matches, then line 188 evaluates `urllib.parse.urlparse(...)`
— a read of the global name `urllib`, which the module never binds, so the
lookup raises `NameError` and the normalization on line 189 is unreachable. -/
def PostgrestAPI_init (connection_url : String) : Except PyExc String :=
  let u := if matchesHttpScheme connection_url then connection_url
           else "http://" ++ connection_url
  if postgrestModuleNames.contains "urllib" then
    let p := urlparseSchemeNetloc u
    .ok (p.1 ++ "://" ++ p.2)
  else
    .error (.nameError "urllib")

/-- Modelled from the spec: the constructor as the spec describes it (and
as the module's import-compatibility shim prepares, i.e. line 188 written
with the bound alias `urlparse`): normalize to `scheme://netloc`,
defaulting the scheme to `http://`, dropping path and query. -/
def PostgrestAPI_init_intended (connection_url : String) : String :=
  let u := if matchesHttpScheme connection_url then connection_url
           else "http://" ++ connection_url
  let p := urlparseSchemeNetloc u
  p.1 ++ "://" ++ p.2

/-!
The legacy JSON/JSONB filter-parameter rewrite.  `src/` holds only the
instance-oriented implementation, whose `filter` sends `params` verbatim;
the spec attributes the rewrite to "a legacy convenience" of the other of
the repository's "two independent, divergent implementations", which is
not under `src/`, so it is modelled from the spec here.
-/

/-- Modelled from the spec: the JSON/JSONB marker suffix on a filter
parameter name.  The spec does not spell the marker; it is taken to be
`_json`. -/
def jsonMarkerSuffix : String := "_json"

/-- Split a character list around the LAST occurrence of `sep`; if `sep`
does not occur the whole list is the first component. -/
def splitLastSep (sep : Char) : List Char → List Char × List Char
  | [] => ([], [])
  | c :: t =>
    if t.contains sep then
      let p := splitLastSep sep t
      (c :: p.1, p.2)
    else if c = sep then ([], t)
    else (c :: t, [])

/-- Modelled from the spec: rewrite a parameter name carrying the JSON
marker suffix to PostgREST's `->>` traversal operator form
(`col_key_json` becomes `col->>key`); other names pass unchanged. -/
def rewriteJsonParamName (n : String) : String :=
  if strEndsWith n jsonMarkerSuffix then
    let base := n.data.take (n.data.length - jsonMarkerSuffix.data.length)
    let p := splitLastSep '_' base
    String.mk (p.1 ++ ('-' :: '>' :: '>' :: p.2))
  else n

/-- Modelled from the spec: one query parameter after the legacy rewrite —
the name is rewritten, the value is untouched. -/
def legacyRewriteParam (kv : String × String) : String × String :=
  (rewriteJsonParamName kv.1, kv.2)

/-- Modelled from the spec: the whole parameter list after the legacy
rewrite. -/
def legacyRewriteParams (ps : List (String × String)) : List (String × String) :=
  ps.map legacyRewriteParam

/-- Modelled from the spec: the legacy implementation's `filter`, which
sends the REWRITTEN parameters as the query of the GET. -/
def legacyFilter (env : Session) (url : String) (ps : List (String × String)) :
    PyM (List Attrs) :=
  PyM.bind (httpCall env (.get url (legacyRewriteParams ps))) (fun resp =>
    if resp.isError then
      PyM.throw (.postgrest (httpErrorMsg resp) resp)
    else
      PyM.pure resp.body)

/-! Helper lemmas about the substring test. -/

lemma containsSub_of_starts (pat s : List Char) (h : pat.isPrefixOf s = true) :
    containsSub pat s = true := by
  cases s with
  | nil =>
    cases pat with
    | nil => rfl
    | cons c t => simp [List.isPrefixOf] at h
  | cons c t => simp [containsSub, h]

lemma containsSub_middle (pat x y : List Char) :
    containsSub pat (x ++ (pat ++ y)) = true := by
  induction x with
  | nil =>
    simp only [List.nil_append]
    exact containsSub_of_starts _ _
      (List.isPrefixOf_iff_prefix.mpr (List.prefix_append _ _))
  | cons c t ih =>
    simp [containsSub, ih]

lemma exists_ix_of_containsSub (pat s : List Char) (h : containsSub pat s = true) :
    ∃ i, pat <+: s.drop i := by
  induction s with
  | nil =>
    refine ⟨0, ?_⟩
    simp only [containsSub, List.isEmpty_iff] at h
    simp [h]
  | cons c t ih =>
    simp only [containsSub, Bool.or_eq_true] at h
    rcases h with h | h
    · exact ⟨0, List.isPrefixOf_iff_prefix.mp h⟩
    · obtain ⟨i, hi⟩ := ih h
      exact ⟨i + 1, by simpa using hi⟩

lemma take_of_prefix_append (pat x b : List Char) (h : pat <+: x ++ b) :
    x.take pat.length = pat.take x.length := by
  obtain ⟨t, ht⟩ := h
  rcases le_total pat.length x.length with hle | hle
  · have h1 : (pat ++ t).take pat.length = pat := by
      rw [List.take_append_of_le_length le_rfl, List.take_length]
    rw [ht] at h1
    rw [List.take_append_of_le_length hle] at h1
    rw [h1, List.take_of_length_le hle]
  · have h1 : (pat ++ t).take x.length = pat.take x.length :=
      List.take_append_of_le_length hle
    rw [ht, List.take_append_of_le_length le_rfl, List.take_length] at h1
    rw [List.take_of_length_le hle, ← h1]

/-! Concrete fixtures used by the witnesses below. -/

/-- A concrete resource class: pk column `id`, identity key `name`. -/
def Widget : ResourceClass where
  name := "Widget"
  metaTableName := "widgets"
  getOrCreateKeys := ["name"]
  pkOf := fun attrs => [("id", (lookupAttr "id" attrs).getD Value.null)]

/-- A concrete client. -/
def apiW : API := { connection_url := "http://db.example.com:3000" }

/-- A concrete record. -/
def widget1 : Resource := { cls := Widget, attrs := [("id", .int 1), ("name", .str "w1")] }

/-- A record holding an explicit null. -/
def widgetNull : Resource := { cls := Widget, attrs := [("deleted_at", Value.null)] }

/-- A server that always answers 200 with one record. -/
def envOne : Session := fun _ _ =>
  { status := 200, reason := "OK", url := "http://db.example.com:3000/widgets",
    body := [[("id", Value.int 1)]] }

/-! C1: at-most-one-result semantics of `get`. -/

/-- C1: for every call `get(params)`, if `filter(params)` yields zero
records `get` returns `None`; if exactly one, that record; if more than
one, the `assert len(objects) == 1` fails with an `AssertionError`
(`src/postgrest.py:102-107`). -/
theorem C1_get_at_most_one (env : Session) (api : API) (r : Resource)
    (params : List (String × Value)) (resp : HttpResponse)
    (henv : env 0 (.get (r.connUrl api) (stringifyParams params)) = resp)
    (hok : resp.isError = false) :
    (resp.body = [] →
      (Resource.get env api r params).run =
        (.ok none, [.get (r.connUrl api) (stringifyParams params)])) ∧
    (∀ a, resp.body = [a] →
      (Resource.get env api r params).run =
        (.ok (some (Resource.mk r.cls a)), [.get (r.connUrl api) (stringifyParams params)])) ∧
    (2 ≤ resp.body.length →
      (Resource.get env api r params).run =
        (.error .assertionError, [.get (r.connUrl api) (stringifyParams params)])) := by
  refine ⟨fun hb => ?_, fun a hb => ?_, fun hb => ?_⟩
  · simp [PyM.run, Resource.get, Resource.filter, httpCall, PyM.bind, PyM.pure, PyM.throw,
      henv, hok, hb]
  · simp [PyM.run, Resource.get, Resource.filter, httpCall, PyM.bind, PyM.pure, PyM.throw,
      henv, hok, hb]
  · rcases hbody : resp.body with _ | ⟨a, _ | ⟨b, rest⟩⟩
    · rw [hbody] at hb; simp at hb
    · rw [hbody] at hb; simp at hb
    · simp [PyM.run, Resource.get, Resource.filter, httpCall, PyM.bind, PyM.pure, PyM.throw,
        henv, hok, hbody]

/-- Witness for C1 at a concrete one-record server. -/
theorem C1_witness :
    envOne 0 (Request.get (widget1.connUrl apiW) (stringifyParams [])) =
      { status := 200, reason := "OK", url := "http://db.example.com:3000/widgets",
        body := [[("id", Value.int 1)]] } ∧
    (Resource.get envOne apiW widget1 []).run =
      (.ok (some (Resource.mk Widget [("id", Value.int 1)])),
       [Request.get (widget1.connUrl apiW) (stringifyParams [])]) :=
  ⟨rfl, (C1_get_at_most_one envOne apiW widget1 [] _ rfl rfl).2.1 _ rfl⟩

/-! C6: local validation in `get_or_create` before any network call. -/

/-- C6: when some required identity field of `_get_or_create_keys` is
missing from `params`, `get_or_create` raises `ValueError` locally and the
list of issued HTTP requests is empty (`src/postgrest.py:166-168`). -/
theorem C6_goc_validation (env : Session) (api : API) (r : Resource) (params : Attrs)
    (h : ∃ k ∈ r.cls.getOrCreateKeys, params.any (fun kv => kv.1 == k) = false) :
    ∃ k, k ∈ r.cls.getOrCreateKeys ∧ params.any (fun kv => kv.1 == k) = false ∧
      (Resource.get_or_create env api r params).run =
        (.error (.valueError
          ("Must provide \x22" ++ k ++ "\x22 param for " ++ r.cls.name ++ " get_or_create!")),
         []) := by
  rcases hf : r.cls.getOrCreateKeys.find? (fun k => !(params.any (fun kv => kv.1 == k))) with
    _ | k0
  · exfalso
    obtain ⟨k, hk, hka⟩ := h
    have := List.find?_eq_none.mp hf k hk
    simp [hka] at this
  · refine ⟨k0, List.mem_of_find?_eq_some hf, ?_, ?_⟩
    · have := List.find?_some hf
      simpa using this
    · simp [PyM.run, Resource.get_or_create, hf, PyM.throw]

/-- Witness for C6: `Widget` requires `name`, absent from `{}`. -/
theorem C6_witness :
    (∃ k ∈ Widget.getOrCreateKeys, ([] : Attrs).any (fun kv => kv.1 == k) = false) ∧
    ∃ k, k ∈ Widget.getOrCreateKeys ∧ ([] : Attrs).any (fun kv => kv.1 == k) = false ∧
      (Resource.get_or_create envOne apiW { cls := Widget, attrs := [] } []).run =
        (.error (.valueError
          ("Must provide \x22" ++ k ++ "\x22 param for " ++ Widget.name ++ " get_or_create!")),
         []) :=
  ⟨⟨"name", by simp [Widget], rfl⟩,
   C6_goc_validation envOne apiW { cls := Widget, attrs := [] } []
     ⟨"name", by simp [Widget], rfl⟩⟩

/-! C9: attribute access distinguishes missing from null. -/

/-- C9: `__getattr__` raises `AttributeError` for a name absent from
`attrs`, and returns the stored value — in particular `None` — for a
present key (`src/postgrest.py:64-67`). -/
theorem C9_getattr_missing_vs_null (r : Resource) (name : String) :
    (lookupAttr name r.attrs = none →
      Resource.getattr r name = .error (.attributeError
        ("\x27" ++ r.cls.name ++ "\x27 object has no attribute \x27" ++ name ++ "\x27"))) ∧
    (lookupAttr name r.attrs = some Value.null →
      Resource.getattr r name = .ok Value.null) := by
  constructor <;> intro h <;> simp [Resource.getattr, h]

/-- Witness for C9: a missing column and an explicitly-null column. -/
theorem C9_witness :
    lookupAttr "age" widget1.attrs = none ∧
    Resource.getattr widget1 "age" = .error (.attributeError
      ("\x27" ++ widget1.cls.name ++ "\x27 object has no attribute \x27" ++ "age" ++ "\x27")) ∧
    lookupAttr "deleted_at" widgetNull.attrs = some Value.null ∧
    Resource.getattr widgetNull "deleted_at" = .ok Value.null :=
  ⟨rfl, (C9_getattr_missing_vs_null widget1 "age").1 rfl,
   rfl, (C9_getattr_missing_vs_null widgetNull "deleted_at").2 rfl⟩

/-! C10: `create` on a 2xx empty-array response. -/

/-- C10: when the POST of `create(payload)` gets a 2xx response whose JSON
body is the empty array, `attrs[0]` raises an unguarded `IndexError` — not
the wrapped `PostgrestException` kind (`src/postgrest.py:142-144`). -/
theorem C10_create_empty_representation (env : Session) (api : API) (r : Resource)
    (payload : Attrs) (resp : HttpResponse)
    (henv : env 0 (.post (r.connUrl api) (jsonDumps payload)) = resp)
    (h2 : 200 ≤ resp.status) (h3 : resp.status < 300) (hb : resp.body = []) :
    (Resource.create env api r payload).run =
      (.error .indexError, [.post (r.connUrl api) (jsonDumps payload)]) ∧
    ∀ m q, PyExc.indexError ≠ PyExc.postgrest m q := by
  have hne : ¬ 400 ≤ resp.status := by omega
  have hok : resp.isError = false := by simp [HttpResponse.isError, hne]
  constructor
  · simp [PyM.run, Resource.create, Resource.post, httpCall, PyM.bind, PyM.pure, PyM.throw,
      henv, hok, hb]
  · intro m q h
    exact PyExc.noConfusion h

/-- A server that answers 201 Created with an empty representation. -/
def envEmptyCreated : Session := fun _ _ =>
  { status := 201, reason := "Created", url := "http://db.example.com:3000/widgets", body := [] }

/-- Witness for C10 at that server. -/
theorem C10_witness :
    envEmptyCreated 0 (.post (widget1.connUrl apiW) (jsonDumps [("name", .str "w")])) =
      { status := 201, reason := "Created", url := "http://db.example.com:3000/widgets",
        body := [] } ∧
    (Resource.create envEmptyCreated apiW widget1 [("name", .str "w")]).run =
      (.error .indexError, [.post (widget1.connUrl apiW) (jsonDumps [("name", .str "w")])]) :=
  ⟨rfl, (C10_create_empty_representation envEmptyCreated apiW widget1 [("name", .str "w")] _
    rfl (by decide) (by decide) rfl).1⟩

/-! C4: `update` sends the NUL-stripped PATCH and always refreshes. -/

/-- C4: for `update(payload)` with a non-empty payload, an HTTP PATCH goes
to the record's pk-filtered URL whose body is `json.dumps(payload)` with
every `\u0000` escape removed, followed by the refresh GET for the
record's primary key, and the record's attributes are replaced by what the
server currently reports for that key; with an empty/absent payload,
`update` is exactly `refresh()` (`src/postgrest.py:113-129`). -/
theorem C4_update_patch_then_refresh (env : Session) (api : API) (r : Resource)
    (payload : Attrs) (respP respG : HttpResponse) (a : Attrs)
    (hpe : payload ≠ [])
    (hP : env 0 (.patch (r.pk_url api) (removeNulEscapes (jsonDumps payload))) = respP)
    (hPok : respP.isError = false)
    (hG : env 1 (.get (r.connUrl api) (stringifyParams r.pk_dict)) = respG)
    (hGok : respG.isError = false)
    (hGb : respG.body = [a]) :
    (Resource.update env api r payload).run =
      (.ok (Resource.mk r.cls a),
       [.patch (r.pk_url api) (removeNulEscapes (jsonDumps payload)),
        .get (r.connUrl api) (stringifyParams r.pk_dict)]) ∧
    ∀ env' : Session, Resource.update env' api r [] = Resource.refresh env' api r := by
  have hpe' : payload.isEmpty = false := by
    cases payload with
    | nil => exact absurd rfl hpe
    | cons a t => rfl
  constructor
  · simp [PyM.run, Resource.update, hpe', Resource.put, Resource.refresh, Resource.get,
      Resource.filter, httpCall, PyM.bind, PyM.pure, PyM.throw, hP, hPok, hG, hGok, hGb]
  · intro env'
    rfl

/-- A server answering the PATCH with 204 and the refresh GET with the
updated row. -/
def envC4 : Session := fun _ req =>
  match req with
  | .patch _ _ =>
    { status := 204, reason := "No Content", url := "http://db.example.com:3000/widgets",
      body := [] }
  | _ =>
    { status := 200, reason := "OK", url := "http://db.example.com:3000/widgets",
      body := [[("id", Value.int 1), ("name", Value.str "w2")]] }

/-- Witness for C4 at that server. -/
theorem C4_witness :
    ([("name", Value.str "w2")] : Attrs) ≠ [] ∧
    (Resource.update envC4 apiW widget1 [("name", .str "w2")]).run =
      (.ok (Resource.mk Widget [("id", Value.int 1), ("name", Value.str "w2")]),
       [.patch (widget1.pk_url apiW) (removeNulEscapes (jsonDumps [("name", .str "w2")])),
        .get (widget1.connUrl apiW) (stringifyParams widget1.pk_dict)]) :=
  ⟨by simp,
   (C4_update_patch_then_refresh envC4 apiW widget1 [("name", .str "w2")] _ _
     [("id", Value.int 1), ("name", Value.str "w2")]
     (by simp) rfl (by decide) rfl (by decide) rfl).1⟩

/-! C7: non-2xx handling of the four HTTP operations. -/

/-- C7 (amended): for each of `filter`, `put`, `post`, `delete`, a final
response with 4xx/5xx status (the exact range `raise_for_status` raises
for) surfaces as the single wrapped kind `PostgrestException`, carrying
the formatted message and the response (status and body) — never
swallowed.  A non-2xx status outside 400-599 is NOT raised (see the
counterexample). -/
theorem C7_http_errors_wrapped (env : Session) (api : API) (r : Resource)
    (params : List (String × Value)) (payload : Attrs)
    (rg rp rpo rd : HttpResponse)
    (hg : env 0 (.get (r.connUrl api) (stringifyParams params)) = rg)
    (hge : rg.isError = true)
    (hp : env 0 (.patch (r.pk_url api) (removeNulEscapes (jsonDumps payload))) = rp)
    (hpre : rp.isError = true)
    (hpo : env 0 (.post (r.connUrl api) (jsonDumps payload)) = rpo)
    (hpoe : rpo.isError = true)
    (hd : env 0 (.delete (r.pk_url api)) = rd)
    (hde : rd.isError = true) :
    (Resource.filter env api r params).run =
      (.error (.postgrest (httpErrorMsg rg) rg),
       [.get (r.connUrl api) (stringifyParams params)]) ∧
    (Resource.put env api r payload).run =
      (.error (.postgrest (httpErrorMsg rp) rp),
       [.patch (r.pk_url api) (removeNulEscapes (jsonDumps payload))]) ∧
    (Resource.post env api r payload).run =
      (.error (.postgrest (httpErrorMsg rpo) rpo),
       [.post (r.connUrl api) (jsonDumps payload)]) ∧
    (Resource.delete env api r).run =
      (.error (.postgrest (httpErrorMsg rd) rd),
       [.delete (r.pk_url api)]) := by
  refine ⟨?_, ?_, ?_, ?_⟩
  · simp [PyM.run, Resource.filter, httpCall, PyM.bind, PyM.pure, PyM.throw, hg, hge]
  · simp [PyM.run, Resource.put, httpCall, PyM.bind, PyM.pure, PyM.throw, hp, hpre]
  · simp [PyM.run, Resource.post, httpCall, PyM.bind, PyM.pure, PyM.throw, hpo, hpoe]
  · simp [PyM.run, Resource.delete, httpCall, PyM.bind, PyM.pure, PyM.throw, hd, hde]

/-- A server that always answers 404 Not Found. -/
def resp404 : HttpResponse :=
  { status := 404, reason := "Not Found", url := "http://db.example.com:3000/widgets",
    body := [] }

/-- That server as a session. -/
def env404 : Session := fun _ _ => resp404

/-- Witness for C7 at the 404 server, across all four operations. -/
theorem C7_witness :
    resp404.isError = true ∧
    (Resource.filter env404 apiW widget1 []).run =
      (.error (.postgrest (httpErrorMsg resp404) resp404),
       [.get (widget1.connUrl apiW) (stringifyParams [])]) ∧
    (Resource.put env404 apiW widget1 [("name", .str "x")]).run =
      (.error (.postgrest (httpErrorMsg resp404) resp404),
       [.patch (widget1.pk_url apiW) (removeNulEscapes (jsonDumps [("name", .str "x")]))]) ∧
    (Resource.post env404 apiW widget1 [("name", .str "x")]).run =
      (.error (.postgrest (httpErrorMsg resp404) resp404),
       [.post (widget1.connUrl apiW) (jsonDumps [("name", .str "x")])]) ∧
    (Resource.delete env404 apiW widget1).run =
      (.error (.postgrest (httpErrorMsg resp404) resp404),
       [.delete (widget1.pk_url apiW)]) := by
  have h := C7_http_errors_wrapped env404 apiW widget1 [] [("name", .str "x")]
    resp404 resp404 resp404 resp404 rfl (by decide) rfl (by decide) rfl (by decide)
    rfl (by decide)
  exact ⟨by decide, h.1, h.2.1, h.2.2.1, h.2.2.2⟩

/-- A server that always answers 304 Not Modified (a non-2xx status that
`raise_for_status` does not raise for and that `requests` does not follow
as a redirect). -/
def env304 : Session := fun _ _ =>
  { status := 304, reason := "Not Modified", url := "http://db.example.com:3000/widgets",
    body := [] }

/-- Counterexample to C7 as stated: a 304 response is non-2xx, yet
`filter` raises nothing and returns a normal (empty) result. -/
theorem C7_counterexample :
    ¬ (200 ≤ (env304 0 (.get (widget1.connUrl apiW) (stringifyParams []))).status ∧
       (env304 0 (.get (widget1.connUrl apiW) (stringifyParams []))).status < 300) ∧
    (Resource.filter env304 apiW widget1 []).run =
      (.ok [], [.get (widget1.connUrl apiW) (stringifyParams [])]) :=
  ⟨by decide, rfl⟩

/-! C2: `PostgrestAPI.__init__` URL normalization. -/

/-- C2 (code slip): constructing `PostgrestAPI` raises
`NameError: name 'urllib' is not defined` for every connection URL,
because line 188 spells `urllib.parse.urlparse` while the module's import
shim binds only the alias `urlparse`; the intended constructor (the same
code with the bound alias, as the spec describes) normalizes as the claim
states. -/
theorem C2_init_raises_name_error :
    PostgrestAPI_init "db.example.com:3000" = .error (.nameError "urllib") ∧
    PostgrestAPI_init "http://db.example.com:3000/path?q=1" = .error (.nameError "urllib") ∧
    PostgrestAPI_init_intended "db.example.com:3000" = "http://db.example.com:3000" ∧
    PostgrestAPI_init_intended "http://db.example.com:3000/path?q=1" =
      "http://db.example.com:3000" ∧
    PostgrestAPI_init_intended "https://db.example.com" = "https://db.example.com" := by
  refine ⟨rfl, rfl, by decide, by decide, by decide⟩

/-! C5: record equality versus primary-key mappings. -/

/-- A resource class whose pk values are the raw `id` column. -/
def IntPk : ResourceClass where
  name := "IntPk"
  metaTableName := "things"
  getOrCreateKeys := ["id"]
  pkOf := fun attrs => [("id", (lookupAttr "id" attrs).getD Value.null)]

/-- A record with primary key `{'id': -1}`. -/
def recNeg1 : Resource := { cls := IntPk, attrs := [("id", .int (-1))] }

/-- A record with primary key `{'id': -2}`. -/
def recNeg2 : Resource := { cls := IntPk, attrs := [("id", .int (-2))] }

/-- Counterexample to C5 as stated: in every CPython process (every
string/None hash seed), the records with primary keys `{'id': -1}` and
`{'id': -2}` compare EQUAL — `hash(-1) = hash(-2) = -2`, so the sorted
item tuples hash alike — although their primary-key mappings differ. -/
theorem C5_counterexample :
    pyEqAllCfg recNeg1 recNeg2 ∧ recNeg1.pk_dict ≠ recNeg2.pk_dict := by
  constructor
  · intro cfg
    have e1 : recNeg1.pk_dict = [("id", Value.int (-1))] := by decide
    have e2 : recNeg2.pk_dict = [("id", Value.int (-2))] := by decide
    have h1 : pyHashInt (-1) = -2 := by decide
    have h2 : pyHashInt (-2) = -2 := by decide
    simp [Resource.pyEq, Resource.pyHash, e1, e2, sortItems, insertSorted,
      pyHashItem, pyHashValue, h1, h2]
  · decide

/-- C5 (amended): record equality is equality of the Python hashes of the
sorted primary-key items; equal primary-key mappings therefore imply
record equality (for every hash seed), but not conversely (see the
counterexample). -/
theorem C5_pk_equality (cfg : HashCfg) (r1 r2 : Resource)
    (h : r1.pk_dict = r2.pk_dict) : Resource.pyEq cfg r1 r2 = true := by
  simp [Resource.pyEq, Resource.pyHash, h]

/-- A second record, identical primary key to `widget1`, different attrs. -/
def widget1b : Resource := { cls := Widget, attrs := [("id", .int 1), ("name", .str "other")] }

/-- Witness for the amended C5. -/
theorem C5_witness :
    widget1.pk_dict = widget1b.pk_dict ∧
    Resource.pyEq { strHash := fun _ => 0, noneHash := 0 } widget1 widget1b = true :=
  ⟨by decide, C5_pk_equality { strHash := fun _ => 0, noneHash := 0 } widget1 widget1b
    (by decide)⟩

/-! C8: the legacy JSON/JSONB marker rewrite (modelled from the spec). -/

/-- C8 (spec-modelled): in the legacy filter, every query parameter whose
name carries the JSON marker suffix is rewritten to the `->>` traversal
operator form before the GET is issued, with its value preserved
unchanged; unmarked names pass through untouched. -/
theorem C8_json_marker_rewrite (env : Session) (url : String)
    (ps : List (String × String)) (n v : String) :
    ((legacyFilter env url ps).run.2 = [.get url (legacyRewriteParams ps)]) ∧
    ((legacyRewriteParams ps).map Prod.snd = ps.map Prod.snd) ∧
    (strEndsWith n jsonMarkerSuffix = true →
      legacyRewriteParam (n, v) = (rewriteJsonParamName n, v) ∧
      strContains (rewriteJsonParamName n) "->>" = true) ∧
    (strEndsWith n jsonMarkerSuffix = false →
      legacyRewriteParam (n, v) = (n, v)) := by
  refine ⟨?_, ?_, fun h => ⟨rfl, ?_⟩, fun h => ?_⟩
  · simp only [PyM.run, legacyFilter, httpCall, PyM.bind]
    split <;> rfl
  · induction ps with
    | nil => rfl
    | cons a t _ih => simp [legacyRewriteParams, legacyRewriteParam]
  · simp only [rewriteJsonParamName, h, if_true]
    show containsSub "->>".data _ = true
    rw [show ('-' :: '>' :: '>' ::
        (splitLastSep '_' (n.data.take (n.data.length - jsonMarkerSuffix.data.length))).2)
      = "->>".data ++
        (splitLastSep '_' (n.data.take (n.data.length - jsonMarkerSuffix.data.length))).2
      from rfl]
    exact containsSub_middle _ _ _
  · simp [legacyRewriteParam, rewriteJsonParamName, h]

/-- Witness for C8 on a concrete marked parameter. -/
theorem C8_witness :
    strEndsWith "data_field_json" jsonMarkerSuffix = true ∧
    legacyRewriteParam ("data_field_json", "eq.5") =
      (rewriteJsonParamName "data_field_json", "eq.5") ∧
    strContains (rewriteJsonParamName "data_field_json") "->>" = true ∧
    rewriteJsonParamName "data_field_json" = "data->>field" :=
  ⟨by decide,
   ((C8_json_marker_rewrite envOne "u" [] "data_field_json" "eq.5").2.2.1 (by decide)).1,
   ((C8_json_marker_rewrite envOne "u" [] "data_field_json" "eq.5").2.2.1 (by decide)).2,
   by decide⟩

/-! C3: the conflict-recovery path of `get_or_create`.

`src/postgrest.py:176` recognizes the conflict by substring-matching
`'409 Client Error: Conflict for'` against `str(e)`.  The lemmas below
show the match fires for a 409 response (with the standard `Conflict`
reason phrase) and cannot fire for any other 4xx/5xx response whose
reason phrase contains no `'4'` and whose URL contains no space (as
`requests` percent-encodes spaces in URLs). -/

/-- The status-and-kind head of a `raise_for_status` message:
`'NNN Client Error: '` or `'NNN Server Error: '` — 18 characters for every
three-digit status. -/
def headChars (s : Nat) : List Char :=
  (toString s ++ (if s < 500 then " Client Error: " else " Server Error: ")).data

lemma httpErrorMsg_data (r : HttpResponse) (h4 : 400 ≤ r.status) :
    (httpErrorMsg r).data =
      headChars r.status ++ (r.reason.data ++ (" for url: ".data ++ r.url.data)) := by
  unfold httpErrorMsg headChars
  by_cases h5 : r.status < 500
  · rw [if_pos (by simp [h4, h5]), if_pos h5]
    simp [String.data_append, List.append_assoc]
  · rw [if_neg (by simp [h5]), if_neg h5]
    simp [String.data_append, List.append_assoc]

set_option maxRecDepth 40000 in
lemma headCharsLength : ∀ s < 600, 400 ≤ s → (headChars s).length = 18 := by decide

set_option maxRecDepth 40000 in
lemma headNoNeedle : ∀ s < 600, 400 ≤ s → s ≠ 409 → ∀ i < 18,
    ((headChars s).drop i).take 30 ≠ conflictNeedle.data.take (18 - i) := by decide

/-- For a 409 with the standard reason phrase, the needle occurs in the
wrapped message (it is a prefix of it). -/
lemma conflictNeedle_in_409 (r : HttpResponse)
    (hs : r.status = 409) (hre : r.reason = "Conflict") :
    strContains (httpErrorMsg r) conflictNeedle = true := by
  have hmsg : httpErrorMsg r = conflictNeedle ++ (" url: " ++ r.url) := by
    unfold httpErrorMsg
    rw [hs, hre, if_pos (by decide)]
    rw [← String.append_assoc]
    exact congrArg (fun x => x ++ r.url) (by decide)
  rw [strContains, hmsg, String.data_append]
  exact containsSub_of_starts _ _ (List.isPrefixOf_iff_prefix.mpr (List.prefix_append _ _))

/-- For any other 4xx/5xx (digit-free-of-`4` reason, space-free URL), the
needle does NOT occur in the wrapped message. -/
lemma noConflictNeedle (r : HttpResponse)
    (h4 : 400 ≤ r.status) (h6 : r.status < 600) (h9 : r.status ≠ 409)
    (hr : '4' ∉ r.reason.data) (hu : ' ' ∉ r.url.data) :
    strContains (httpErrorMsg r) conflictNeedle = false := by
  rw [strContains]
  by_contra hcon
  rw [Bool.not_eq_false] at hcon
  obtain ⟨i, hi⟩ := exists_ix_of_containsSub _ _ hcon
  rw [httpErrorMsg_data r h4, List.drop_append_eq_append_drop,
    headCharsLength r.status h6 h4] at hi
  by_cases hlt : i < 18
  · have htk := take_of_prefix_append _ _ _ hi
    have hlen30 : conflictNeedle.data.length = 30 := by decide
    rw [List.length_drop, headCharsLength r.status h6 h4, hlen30] at htk
    exact headNoNeedle r.status h6 h4 h9 i hlt htk
  · have hnil : (headChars r.status).drop i = [] :=
      List.drop_eq_nil_of_le (by rw [headCharsLength r.status h6 h4]; omega)
    rw [hnil, List.nil_append, ← List.append_assoc,
      List.drop_append_eq_append_drop] at hi
    obtain ⟨RB, hRB⟩ : ∃ RB, r.reason.data ++ " for url: ".data = RB := ⟨_, rfl⟩
    rw [hRB] at hi
    by_cases hjlt : i - 18 < RB.length
    · obtain ⟨t, ht⟩ := hi
      cases hd : RB.drop (i - 18) with
      | nil =>
        have hlend := List.length_drop (i - 18) RB
        rw [hd] at hlend
        simp only [List.length_nil] at hlend
        omega
      | cons c cs =>
        have hN : conflictNeedle.data = '4' :: "09 Client Error: Conflict for".data := by
          decide
        rw [hd, hN] at ht
        have hc : c = '4' := by
          have := congrArg (fun l => l.head?) ht
          simpa using this.symm
        have hmem : ('4' : Char) ∈ RB := by
          rw [← hc]
          exact List.drop_subset _ _ (hd ▸ List.mem_cons_self c cs)
        rw [← hRB] at hmem
        rcases List.mem_append.mp hmem with hmm | hmm
        · exact hr hmm
        · have : ('4' : Char) ∉ " for url: ".data := by decide
          exact this hmm
    · have hnil2 : RB.drop (i - 18) = [] :=
        List.drop_eq_nil_of_le (by omega)
      rw [hnil2, List.nil_append] at hi
      have hsp : (' ' : Char) ∈ conflictNeedle.data := by decide
      exact hu (List.drop_subset _ _ (hi.sublist.subset hsp))

/-- C3: in `get_or_create`, when the initial identity-field `get` finds
nothing, a creation failing with HTTP 409 Conflict is recovered by
re-querying the identity fields and returning `(record, False)`, while any
other 4xx/5xx error raised by `create` is re-raised unchanged (the same
wrapped exception object), under the standard-server modelling
hypotheses: the 409 carries the reason phrase `Conflict`, other reasons
contain no `'4'`, and request URLs contain no space
(`src/postgrest.py:170-178`). -/
theorem C3_goc_conflict (env : Session) (api : API) (r : Resource) (params : Attrs)
    (resp0 respC resp2 : HttpResponse) (a : Attrs)
    (hkeys : ∀ k ∈ r.cls.getOrCreateKeys, params.any (fun kv => kv.1 == k) = true)
    (h0 : env 0 (.get (r.connUrl api)
      (stringifyParams (gocFilterParams r.cls.getOrCreateKeys params))) = resp0)
    (h0ok : resp0.isError = false) (h0b : resp0.body = [])
    (hC : env 1 (.post (r.connUrl api) (jsonDumps params)) = respC) :
    (respC.status = 409 → respC.reason = "Conflict" →
      env 2 (.get (r.connUrl api)
        (stringifyParams (gocFilterParams r.cls.getOrCreateKeys params))) = resp2 →
      resp2.isError = false → resp2.body = [a] →
      (Resource.get_or_create env api r params).run =
        (.ok (some (Resource.mk r.cls a), false),
         [.get (r.connUrl api)
            (stringifyParams (gocFilterParams r.cls.getOrCreateKeys params)),
          .post (r.connUrl api) (jsonDumps params),
          .get (r.connUrl api)
            (stringifyParams (gocFilterParams r.cls.getOrCreateKeys params))])) ∧
    (respC.isError = true → respC.status ≠ 409 →
      '4' ∉ respC.reason.data → ' ' ∉ respC.url.data →
      (Resource.get_or_create env api r params).run =
        (.error (.postgrest (httpErrorMsg respC) respC),
         [.get (r.connUrl api)
            (stringifyParams (gocFilterParams r.cls.getOrCreateKeys params)),
          .post (r.connUrl api) (jsonDumps params)])) := by
  have hf : r.cls.getOrCreateKeys.find?
      (fun k => !(params.any (fun kv => kv.1 == k))) = none :=
    List.find?_eq_none.mpr (fun k hk => by simp [hkeys k hk])
  constructor
  · intro hs hre h2 h2ok h2b
    have hCe : respC.isError = true := by simp [HttpResponse.isError, hs]
    have hcontains := conflictNeedle_in_409 respC hs hre
    simp [PyM.run, Resource.get_or_create, hf, Resource.get, Resource.filter,
      Resource.create, Resource.post, httpCall, PyM.bind, PyM.pure, PyM.throw,
      PyM.tryCatch, h0, h0ok, h0b, hC, hCe, hcontains, h2, h2ok, h2b]
  · intro hCe hne h4r hspu
    have hb : 400 ≤ respC.status ∧ respC.status < 600 := by
      simpa [HttpResponse.isError] using hCe
    have hnc : strContains (httpErrorMsg respC) conflictNeedle = false :=
      noConflictNeedle respC hb.1 hb.2 hne h4r hspu
    simp [PyM.run, Resource.get_or_create, hf, Resource.get, Resource.filter,
      Resource.create, Resource.post, httpCall, PyM.bind, PyM.pure, PyM.throw,
      PyM.tryCatch, h0, h0ok, h0b, hC, hCe, hnc]

/-- A server for the 409 race: first GET finds nothing, the POST hits a
uniqueness conflict, the re-query GET finds the row the other writer
inserted. -/
def envConflict : Session := fun t _ =>
  if t = 0 then
    { status := 200, reason := "OK", url := "http://db.example.com:3000/widgets", body := [] }
  else if t = 1 then
    { status := 409, reason := "Conflict", url := "http://db.example.com:3000/widgets",
      body := [] }
  else
    { status := 200, reason := "OK", url := "http://db.example.com:3000/widgets",
      body := [[("id", Value.int 7), ("name", Value.str "w1")]] }

/-- A server whose POST fails with 500 Internal Server Error instead. -/
def envServerErr : Session := fun t _ =>
  if t = 0 then
    { status := 200, reason := "OK", url := "http://db.example.com:3000/widgets", body := [] }
  else
    { status := 500, reason := "Internal Server Error",
      url := "http://db.example.com:3000/widgets", body := [] }

/-- The 500 response of that server. -/
def resp500 : HttpResponse :=
  { status := 500, reason := "Internal Server Error",
    url := "http://db.example.com:3000/widgets", body := [] }

/-- Witness for C3: both the conflict-recovery path and the re-raise path
at concrete servers. -/
theorem C3_witness :
    (∀ k ∈ Widget.getOrCreateKeys,
      ([("name", Value.str "w1")] : Attrs).any (fun kv => kv.1 == k) = true) ∧
    (Resource.get_or_create envConflict apiW widget1 [("name", .str "w1")]).run =
      (.ok (some (Resource.mk Widget [("id", Value.int 7), ("name", Value.str "w1")]), false),
       [.get (widget1.connUrl apiW)
          (stringifyParams (gocFilterParams Widget.getOrCreateKeys [("name", .str "w1")])),
        .post (widget1.connUrl apiW) (jsonDumps [("name", .str "w1")]),
        .get (widget1.connUrl apiW)
          (stringifyParams (gocFilterParams Widget.getOrCreateKeys [("name", .str "w1")]))]) ∧
    (Resource.get_or_create envServerErr apiW widget1 [("name", .str "w1")]).run =
      (.error (.postgrest (httpErrorMsg resp500) resp500),
       [.get (widget1.connUrl apiW)
          (stringifyParams (gocFilterParams Widget.getOrCreateKeys [("name", .str "w1")])),
        .post (widget1.connUrl apiW) (jsonDumps [("name", .str "w1")])]) :=
  ⟨by decide,
   (C3_goc_conflict envConflict apiW widget1 [("name", .str "w1")] _ _ _
       [("id", Value.int 7), ("name", Value.str "w1")]
       (by decide) rfl (by decide) rfl rfl).1 rfl rfl rfl (by decide) rfl,
   (C3_goc_conflict envServerErr apiW widget1 [("name", .str "w1")] _ resp500 resp500 []
       (by decide) rfl (by decide) rfl rfl).2 (by decide) (by decide) (by decide)
       (by decide)⟩
